import Mathlib

/-!
Verification development for the banking feature-store RBAC configuration.

The repository declares two permission configurations
(`src/feature_repo/permissions.py` and `src/server_feature_repo/permissions.py`)
for an external feature-store framework, plus a notebook-style test harness
(`src/basic_tests_script.py`).  The permission lists are embedded here directly
from the source.  The decision engine and the policy predicates live in the
external framework (they are not under src/), so those definitions are
modelled from the spec and marked as such in their doc comments.
-/

namespace BankingFeatureStore

/-- The enumerated authorization action tags (`AuthzedAction` in the source imports). -/
inductive AuthzedAction where
  | CREATE
  | UPDATE
  | DELETE
  | DESCRIBE
  | READ_OFFLINE
  | READ_ONLINE
  | WRITE_OFFLINE
  | WRITE_ONLINE
deriving DecidableEq

/-- Modelled from the spec: `ALL_ACTIONS` is the full enumeration of `AuthzedAction`
(the source imports it from the external framework). -/
def ALL_ACTIONS : List AuthzedAction :=
  [.CREATE, .UPDATE, .DELETE, .DESCRIBE,
   .READ_OFFLINE, .READ_ONLINE, .WRITE_OFFLINE, .WRITE_ONLINE]

/-- Modelled from the spec: `READ` is the pair of read actions
(the source imports it from the external framework). -/
def READ : List AuthzedAction := [.READ_OFFLINE, .READ_ONLINE]

/-- The resource-kind tags used by the configurations (each is a class imported
from the external framework in the source). -/
inductive ResourceType where
  | Project
  | FeatureView
  | OnDemandFeatureView
  | Entity
  | FeatureService
  | DataSource
  | SavedDataset
deriving DecidableEq

/-- Modelled from the spec: `ALL_RESOURCE_TYPES` covers every resource-kind tag
(the source imports it from the external framework). -/
def ALL_RESOURCE_TYPES : List ResourceType :=
  [.Project, .FeatureView, .OnDemandFeatureView, .Entity,
   .FeatureService, .DataSource, .SavedDataset]

/-- Boolean substring containment on character lists: `containsSub sub l` is true
exactly when `sub` occurs contiguously inside `l`. -/
def containsSub (sub : List Char) : List Char → Bool
  | [] => sub.isEmpty
  | c :: t => sub.isPrefixOf (c :: t) || containsSub sub t

/-- A resource-name regular expression, represented at the level the repository uses it:
the only pattern occurring in the configurations is `^(?!.*transaction).*`, a negative
lookahead excluding every name that contains a given substring.  The constructor records
that excluded substring. -/
inductive NamePattern where
  | negLookahead (sub : String)
deriving DecidableEq

/-- Modelled from the spec: full-string-anchored evaluation of a name pattern
(regular-expression evaluation belongs to the external framework).  With full-string
anchoring, `^(?!.*s).*` matches a name exactly when the name does not contain `s`
as a substring. -/
def NamePattern.matchesName : NamePattern → String → Bool
  | .negLookahead sub, s => !(containsSub sub.toList s.toList)

/-- An authenticated caller with resolved role and group memberships. -/
structure Principal where
  roles : List String
  groups : List String
deriving DecidableEq

/-- The policy variants available in the configurations (classes imported from the
external framework in the source). -/
inductive Policy where
  | RoleBasedPolicy (roles : List String)
  | GroupBasedPolicy (groups : List String)
  | NamespaceBasedPolicy (namespaces : List String)
  | CombinedGroupNamespacePolicy (groups : List String) (namespaces : List String)
deriving DecidableEq

/-- Modelled from the spec: each policy variant is a pure predicate over the principal
and the namespace of the request.  RoleBasedPolicy holds when the role set of the
principal intersects `roles`; GroupBasedPolicy when the group set of the principal
intersects `groups`; NamespaceBasedPolicy when the namespace is in `namespaces`;
CombinedGroupNamespacePolicy is the conjunction of the group and the namespace
condition. -/
def Policy.matches : Policy → Principal → String → Bool
  | .RoleBasedPolicy rs, P, _ => rs.any (fun r => P.roles.contains r)
  | .GroupBasedPolicy gs, P, _ => gs.any (fun g => P.groups.contains g)
  | .NamespaceBasedPolicy nss, _, n => nss.contains n
  | .CombinedGroupNamespacePolicy gs nss, P, n =>
      gs.any (fun g => P.groups.contains g) && nss.contains n

/-- A resource instance: a kind tag, a name and a namespace. -/
structure Resource where
  kind : ResourceType
  name : String
  «namespace» : String
deriving DecidableEq

/-- A permission entry: a unique name, the resource kinds it covers, optional
name patterns restricting applicability by resource name, a policy and a set of
granted actions (the `Permission` class of the external framework, as configured
by the source). -/
structure Permission where
  name : String
  types : List ResourceType
  name_patterns : Option (List NamePattern)
  policy : Policy
  actions : List AuthzedAction
deriving DecidableEq

/-- Modelled from the spec: a permission applies to the name of a resource when its
`name_patterns`, if present, match that name under full-string anchoring; absent
patterns impose no restriction. -/
def name_matches (p : Permission) (R : Resource) : Bool :=
  match p.name_patterns with
  | none => true
  | some pats => pats.all (fun pat => pat.matchesName R.name)

/-- Modelled from the spec: the decision engine of the external framework.  Collect
every permission whose resource kinds contain the kind of the resource, whose name
patterns (when present) match the resource name, and whose actions contain the
requested action; the decision is allow exactly when at least one such permission
has a policy matching the principal.  No permission matching means deny
(fail-closed). -/
def decision (perms : List Permission) (P : Principal) (R : Resource)
    (a : AuthzedAction) : Bool :=
  perms.any (fun p =>
    p.types.contains R.kind && name_matches p R && p.actions.contains a
      && p.policy.matches P R.«namespace»)

end BankingFeatureStore

namespace BankingFeatureStore.FeatureRepo

/-- Group definitions of `src/feature_repo/permissions.py`. -/
def admin_groups : List String := ["banking-admin"]

def data_engineers_groups : List String := ["data-engineers"]

def data_scientists_groups : List String := ["data-scientists"]

def read_only_analysts_groups : List String := ["read-only-analysts"]

def restricted_user_groups : List String := ["restricted-user"]

/-- Namespace list of `src/feature_repo/permissions.py`: always feast for production. -/
def «namespace» : List String := ["feast"]

/-- Resource types for feature store operations. -/
def resource_types : List ResourceType :=
  [.Project, .FeatureView, .OnDemandFeatureView, .Entity,
   .FeatureService, .DataSource, .SavedDataset]

/-- Admin permissions: full access to everything. -/
def admin_perm : Permission :=
  ⟨"admin_permissions", ALL_RESOURCE_TYPES, none,
   .CombinedGroupNamespacePolicy admin_groups «namespace», ALL_ACTIONS⟩

/-- Data engineers permissions: can create and modify features and read and write data. -/
def data_engineers_perm : Permission :=
  ⟨"data_engineers_permissions", resource_types, none,
   .CombinedGroupNamespacePolicy data_engineers_groups «namespace»,
   [.CREATE, .UPDATE, .DELETE, .DESCRIBE,
    .READ_OFFLINE, .READ_ONLINE, .WRITE_OFFLINE, .WRITE_ONLINE]⟩

/-- Data scientists permissions: can read features for ML models, no write access. -/
def data_scientists_perm : Permission :=
  ⟨"data_scientists_permissions", [.FeatureView, .FeatureService, .Entity], none,
   .CombinedGroupNamespacePolicy data_scientists_groups «namespace»,
   [.DESCRIBE, .READ_OFFLINE, .READ_ONLINE]⟩

/-- Read-only analysts permissions: can only read historical features, no online access. -/
def read_only_analysts_perm : Permission :=
  ⟨"read_only_analysts_permissions", ALL_RESOURCE_TYPES, none,
   .CombinedGroupNamespacePolicy read_only_analysts_groups «namespace»,
   [.DESCRIBE, .READ_OFFLINE]⟩

/-- Restricted user permissions: can only list feature views. -/
def restricted_user_perm : Permission :=
  ⟨"restricted_user_permissions", [.FeatureView], none,
   .CombinedGroupNamespacePolicy restricted_user_groups «namespace»,
   [.DESCRIBE]⟩

/-- Exported permissions list of `src/feature_repo/permissions.py`. -/
def permissions : List Permission :=
  [admin_perm, data_engineers_perm, data_scientists_perm,
   read_only_analysts_perm, restricted_user_perm]

end BankingFeatureStore.FeatureRepo

namespace BankingFeatureStore.ServerFeatureRepo

/-- Group definitions of `src/server_feature_repo/permissions.py`. -/
def admin_groups : List String := ["banking-admin"]

def data_engineers_groups : List String := ["data-engineers"]

def data_scientists_groups : List String := ["data-scientists"]

def read_only_analysts_groups : List String := ["read-only-analysts"]

def restricted_user_groups : List String := ["restricted-user"]

/-- Namespace list of `src/server_feature_repo/permissions.py`. -/
def «namespace» : List String := ["feast"]

/-- Resource types for feature store operations. -/
def resource_types : List ResourceType :=
  [.Project, .FeatureView, .OnDemandFeatureView, .Entity,
   .FeatureService, .DataSource, .SavedDataset]

/-- Resource types for data engineers: DataSource is intentionally excluded. -/
def data_engineers_resource_types : List ResourceType :=
  [.Project, .FeatureView, .OnDemandFeatureView, .Entity,
   .FeatureService, .SavedDataset]

/-- Admin permissions: full access to everything. -/
def admin_perm : Permission :=
  ⟨"admin_permissions", ALL_RESOURCE_TYPES, none,
   .GroupBasedPolicy admin_groups, ALL_ACTIONS⟩

/-- Data engineers permissions: access to everything but data sources. -/
def data_engineers_perm : Permission :=
  ⟨"data_engineers_permissions", data_engineers_resource_types, none,
   .GroupBasedPolicy data_engineers_groups,
   [.CREATE, .UPDATE, .DELETE, .DESCRIBE,
    .READ_OFFLINE, .READ_ONLINE, .WRITE_OFFLINE, .WRITE_ONLINE]⟩

/-- Data scientists permissions: read access, no DataSource, and the name pattern
`^(?!.*transaction).*` excluding resources whose name contains transaction. -/
def data_scientists_perm : Permission :=
  ⟨"data_scientists_permissions", [.FeatureView, .FeatureService, .Entity],
   some [.negLookahead "transaction"],
   .GroupBasedPolicy data_scientists_groups,
   [.DESCRIBE, .READ_OFFLINE, .READ_ONLINE]⟩

/-- Read-only analysts permissions: historical reads only, limited types, and the
name pattern `^(?!.*transaction).*`. -/
def read_only_analysts_perm : Permission :=
  ⟨"read_only_analysts_permissions", [.FeatureView, .Entity, .FeatureService],
   some [.negLookahead "transaction"],
   .GroupBasedPolicy read_only_analysts_groups,
   [.DESCRIBE, .READ_OFFLINE]⟩

/-- Restricted user permissions: can only list feature views. -/
def restricted_user_perm : Permission :=
  ⟨"restricted_user_permissions", [.FeatureView], none,
   .GroupBasedPolicy restricted_user_groups,
   [.DESCRIBE]⟩

/-- Exported permissions list of `src/server_feature_repo/permissions.py`. -/
def permissions : List Permission :=
  [admin_perm, data_engineers_perm, data_scientists_perm,
   read_only_analysts_perm, restricted_user_perm]

end BankingFeatureStore.ServerFeatureRepo

namespace BankingFeatureStore.Harness

/-- Outcome of a single underlying feature-store call in `src/basic_tests_script.py`:
success, a FeastPermissionError, or another exception carrying its message. -/
inductive Outcome where
  | ok
  | permErr
  | exn (msg : String)
deriving DecidableEq

/-- The shared try-except shape of the read tests in the harness: a successful store
call is reported as success, while FeastPermissionError and any other exception are
caught and reported as failure. -/
def tryOutcome : Outcome → Bool
  | .ok => true
  | .permErr => false
  | .exn _ => false

/-- `test_list_feature_views`: lists feature views, catching FeastPermissionError and
any other exception as a per-operation failure. -/
def test_list_feature_views (o : Outcome) : Bool := tryOutcome o

/-- `test_list_entities`. -/
def test_list_entities (o : Outcome) : Bool := tryOutcome o

/-- `test_list_feature_services`. -/
def test_list_feature_services (o : Outcome) : Bool := tryOutcome o

/-- `test_historical_features_call_center_90d`. -/
def test_historical_features_call_center_90d (o : Outcome) : Bool := tryOutcome o

/-- `test_historical_features_call_center_predictive`. -/
def test_historical_features_call_center_predictive (o : Outcome) : Bool := tryOutcome o

/-- `test_online_features_call_center_90d`. -/
def test_online_features_call_center_90d (o : Outcome) : Bool := tryOutcome o

/-- `test_online_features_call_center_predictive`. -/
def test_online_features_call_center_predictive (o : Outcome) : Bool := tryOutcome o

/-- `test_get_or_create_entity`: the inner broad except around `get_entity` catches
every exception (FeastPermissionError included) and falls through to creating the
entity via `store.apply`; the outer handlers catch failures of that apply call. -/
def test_get_or_create_entity (getE applyE : Outcome) : Bool :=
  match getE with
  | .ok => true
  | _ => tryOutcome applyE

/-- `test_get_or_create_data_source`: the inner broad except around `get_data_source`
catches every exception and reports failure, since a data source cannot be created
without a source definition. -/
def test_get_or_create_data_source : Outcome → Bool
  | .ok => true
  | _ => false

/-- `test_create_feature_view`: requires the customer entity and the customer data
source; the FeatureView definition itself is constructed locally without a store
call, so it succeeds exactly when both lookups succeed. -/
def test_create_feature_view (getE applyE getDS : Outcome) : Bool :=
  test_get_or_create_entity getE applyE && test_get_or_create_data_source getDS

/-- `test_apply_feature_view`. -/
def test_apply_feature_view (o : Outcome) : Bool := tryOutcome o

/-- `test_verify_feature_view`. -/
def test_verify_feature_view (o : Outcome) : Bool := tryOutcome o

/-- `test_retrieve_from_created_feature_view`. -/
def test_retrieve_from_created_feature_view (o : Outcome) : Bool := tryOutcome o

/-- `test_delete_feature_view`: a FeastPermissionError is reported as failure, but a
generic exception whose lower-cased message contains "not found" or "does not exist"
is reported as success (the view is taken to be already deleted); every other
exception is reported as failure. -/
def test_delete_feature_view : Outcome → Bool
  | .ok => true
  | .permErr => false
  | .exn msg =>
      if containsSub "not found".toList (msg.toList.map Char.toLower)
          || containsSub "does not exist".toList (msg.toList.map Char.toLower) then
        true
      else
        false

/-- Result record of `test_materialize_feature_views_one_by_one`. -/
structure MatResult where
  success : Bool
  materialized_count : Nat
  failed_count : Nat
  total_views : Nat
deriving DecidableEq

/-- `test_materialize_feature_views_one_by_one`: if listing the feature views fails,
or there is nothing to materialize, the result is a failure with zero counts;
otherwise each view is materialized inside its own try-except, failures are recorded
per view and the loop continues, and overall success means at least one view
materialized. -/
def test_materialize_feature_views_one_by_one
    (listFVs : Outcome) (perView : List Outcome) : MatResult :=
  match listFVs with
  | .ok =>
      if perView.isEmpty then ⟨false, 0, 0, 0⟩
      else
        let ok := (perView.filter (fun o => o == Outcome.ok)).length
        let failed := perView.length - ok
        ⟨decide (0 < ok), ok, failed, perView.length⟩
  | _ => ⟨false, 0, 0, 0⟩

/-- The behavior of the underlying store for one run of the harness: the outcome of
each store call the tests perform. -/
structure Env where
  listFeatureViews : Outcome
  listEntities : Outcome
  listFeatureServices : Outcome
  historical90d : Outcome
  historicalPredictive : Outcome
  online90d : Outcome
  onlinePredictive : Outcome
  matList : Outcome
  matPerView : List Outcome
  getEntity : Outcome
  applyEntity : Outcome
  getDataSource : Outcome
  applyFeatureView : Outcome
  verifyFeatureView : Outcome
  retrieveCreated : Outcome
  deleteFeatureView : Outcome

/-- A value stored in the results mapping of `run_rbac_tests`: a per-test boolean or
a materialization count. -/
inductive RVal where
  | b (v : Bool)
  | n (v : Nat)
deriving DecidableEq

/-- `run_rbac_tests`: runs every test, storing a per-test result under its key; when
creating the feature view fails the dependent write tests are recorded as failures
rather than skipped, and the run always reaches its final summary, returning the
whole results mapping. -/
def run_rbac_tests (env : Env) : List (String × RVal) :=
  let mat := test_materialize_feature_views_one_by_one env.matList env.matPerView
  let readAndMat : List (String × RVal) :=
    [("list_feature_views", .b (test_list_feature_views env.listFeatureViews)),
     ("list_entities", .b (test_list_entities env.listEntities)),
     ("list_feature_services", .b (test_list_feature_services env.listFeatureServices)),
     ("historical_90d", .b (test_historical_features_call_center_90d env.historical90d)),
     ("historical_predictive",
       .b (test_historical_features_call_center_predictive env.historicalPredictive)),
     ("online_90d", .b (test_online_features_call_center_90d env.online90d)),
     ("online_predictive",
       .b (test_online_features_call_center_predictive env.onlinePredictive)),
     ("materialization", .b mat.success),
     ("materialized_count", .n mat.materialized_count),
     ("failed_materialization_count", .n mat.failed_count)]
  let createOk := test_create_feature_view env.getEntity env.applyEntity env.getDataSource
  let writeResults : List (String × RVal) :=
    if createOk then
      let applyOk := test_apply_feature_view env.applyFeatureView
      ("create_feature_view", RVal.b true) ::
      ("apply_feature_view", RVal.b applyOk) ::
      (if applyOk then
        [("verify_feature_view", RVal.b (test_verify_feature_view env.verifyFeatureView)),
         ("retrieve_from_created_fv",
           RVal.b (test_retrieve_from_created_feature_view env.retrieveCreated)),
         ("delete_feature_view", RVal.b (test_delete_feature_view env.deleteFeatureView))]
      else
        [("verify_feature_view", RVal.b false),
         ("retrieve_from_created_fv", RVal.b false),
         ("delete_feature_view", RVal.b false)])
    else
      [("create_feature_view", RVal.b false),
       ("apply_feature_view", RVal.b false),
       ("verify_feature_view", RVal.b false),
       ("retrieve_from_created_fv", RVal.b false),
       ("delete_feature_view", RVal.b false)]
  readAndMat ++ writeResults

/-- The keys every run of `run_rbac_tests` records, in insertion order. -/
def rbacTestKeys : List String :=
  ["list_feature_views", "list_entities", "list_feature_services",
   "historical_90d", "historical_predictive", "online_90d", "online_predictive",
   "materialization", "materialized_count", "failed_materialization_count",
   "create_feature_view", "apply_feature_view", "verify_feature_view",
   "retrieve_from_created_fv", "delete_feature_view"]

end BankingFeatureStore.Harness

namespace BankingFeatureStore

/-- Claim C1: for every principal P, resource instance R and action a, the decision
function over a fixed permission list returns allow if and only if some permission p
in the list covers the kind tag of R, has name patterns (when present) matching the
name of R, grants a, and has a policy matching P; when no such p exists the decision
is deny (fail-closed). -/
theorem decision_allow_iff_exists_matching_permission
    (perms : List Permission) (P : Principal) (R : Resource) (a : AuthzedAction) :
    decision perms P R a = true ↔
      ∃ p ∈ perms, R.kind ∈ p.types ∧ name_matches p R = true ∧
        a ∈ p.actions ∧ p.policy.matches P R.«namespace» = true := by
  simp [decision, List.any_eq_true, List.elem_iff, Bool.and_eq_true, and_assoc]

/-- Claim C2: under the server_feature_repo configuration, a principal in group
data-engineers with namespace feast is allowed WRITE_ONLINE on a FeatureView (and
data_engineers_perm alone already grants it), while the same principal is denied
DELETE on a DataSource, since data_engineers_resource_types excludes DataSource and
no other permission grants DELETE on DataSource to that group; the feature_repo
variant of data_engineers_perm likewise grants the WRITE_ONLINE request. -/
theorem data_engineers_write_online_allow_delete_datasource_deny :
    decision ServerFeatureRepo.permissions ⟨[], ["data-engineers"]⟩
      ⟨.FeatureView, "customer_profile", "feast"⟩ .WRITE_ONLINE = true ∧
    decision [ServerFeatureRepo.data_engineers_perm] ⟨[], ["data-engineers"]⟩
      ⟨.FeatureView, "customer_profile", "feast"⟩ .WRITE_ONLINE = true ∧
    decision ServerFeatureRepo.permissions ⟨[], ["data-engineers"]⟩
      ⟨.DataSource, "customer_data_source", "feast"⟩ .DELETE = false ∧
    decision FeatureRepo.permissions ⟨[], ["data-engineers"]⟩
      ⟨.FeatureView, "customer_profile", "feast"⟩ .WRITE_ONLINE = true := by
  decide

/-- Claim C3: under full-string-anchored evaluation, the pattern matching the regex
for excluding transaction resources rejects the name transaction_summary and accepts
the name customer_profile; consequently the permissions carrying it
(data_scientists_perm and read_only_analysts_perm of server_feature_repo) do not
apply to the former name and do apply to the latter. -/
theorem transaction_pattern_excludes_transaction_summary :
    NamePattern.matchesName (.negLookahead "transaction") "transaction_summary" = false ∧
    NamePattern.matchesName (.negLookahead "transaction") "customer_profile" = true ∧
    name_matches ServerFeatureRepo.data_scientists_perm
      ⟨.FeatureView, "transaction_summary", "feast"⟩ = false ∧
    name_matches ServerFeatureRepo.data_scientists_perm
      ⟨.FeatureView, "customer_profile", "feast"⟩ = true ∧
    name_matches ServerFeatureRepo.read_only_analysts_perm
      ⟨.FeatureView, "transaction_summary", "feast"⟩ = false ∧
    name_matches ServerFeatureRepo.read_only_analysts_perm
      ⟨.FeatureView, "customer_profile", "feast"⟩ = true := by
  decide

/-- Claim C4: the decision function is monotone in the permission list: whenever the
decision over L is allow, the decision over L extended with one more permission p is
still allow, so adding a permission can turn a deny into an allow but never an allow
into a deny. -/
theorem decision_monotone_in_permission_list
    (L : List Permission) (p : Permission) (P : Principal) (R : Resource)
    (a : AuthzedAction) (h : decision L P R a = true) :
    decision (L ++ [p]) P R a = true := by
  simp only [decision] at h
  simp only [decision, List.any_append, h, Bool.true_or]

/-- Witness for claim C4 at a concrete input: the restricted-user permission alone
allows DESCRIBE on a FeatureView, and appending the admin permission keeps the
allow. -/
theorem decision_monotone_in_permission_list_witness :
    decision [ServerFeatureRepo.restricted_user_perm] ⟨[], ["restricted-user"]⟩
      ⟨.FeatureView, "call_center_90d", "feast"⟩ .DESCRIBE = true ∧
    decision ([ServerFeatureRepo.restricted_user_perm] ++ [ServerFeatureRepo.admin_perm])
      ⟨[], ["restricted-user"]⟩
      ⟨.FeatureView, "call_center_90d", "feast"⟩ .DESCRIBE = true :=
  ⟨by decide,
   decision_monotone_in_permission_list _ _ _ _ _ (by decide)⟩

/-- Claim C5: whenever a CombinedGroupNamespacePolicy matches a principal and a
namespace, the GroupBasedPolicy over the same groups and the NamespaceBasedPolicy
over the same namespaces also match: the accepted set of the combined policy is
contained in the accepted set of each constituent (conjunctive, not additive). -/
theorem combined_policy_subset_of_constituents
    (G N : List String) (P : Principal) (n : String)
    (h : (Policy.CombinedGroupNamespacePolicy G N).matches P n = true) :
    (Policy.GroupBasedPolicy G).matches P n = true ∧
      (Policy.NamespaceBasedPolicy N).matches P n = true := by
  simpa [Policy.matches, Bool.and_eq_true] using h

/-- Witness for claim C5 at a concrete input: the admin combined policy of
feature_repo matches a banking-admin principal in namespace feast, hence so do both
constituents. -/
theorem combined_policy_subset_of_constituents_witness :
    (Policy.CombinedGroupNamespacePolicy ["banking-admin"] ["feast"]).matches
      ⟨[], ["banking-admin"]⟩ "feast" = true ∧
    (Policy.GroupBasedPolicy ["banking-admin"]).matches
      ⟨[], ["banking-admin"]⟩ "feast" = true ∧
    (Policy.NamespaceBasedPolicy ["feast"]).matches
      ⟨[], ["banking-admin"]⟩ "feast" = true :=
  ⟨by decide,
   combined_policy_subset_of_constituents ["banking-admin"] ["feast"]
     ⟨[], ["banking-admin"]⟩ "feast" (by decide)⟩

/-- Claim C6: under both declared configurations, a principal whose only group is
restricted-user is denied READ_OFFLINE on every FeatureView resource, whatever its
name and namespace, because restricted_user_perm grants only DESCRIBE and no other
permission applies to that group. -/
theorem restricted_user_read_offline_deny (name ns : String) :
    decision ServerFeatureRepo.permissions ⟨[], ["restricted-user"]⟩
      ⟨.FeatureView, name, ns⟩ .READ_OFFLINE = false ∧
    decision FeatureRepo.permissions ⟨[], ["restricted-user"]⟩
      ⟨.FeatureView, name, ns⟩ .READ_OFFLINE = false := by
  constructor <;>
    simp [decision, name_matches, Policy.matches,
      ServerFeatureRepo.permissions, ServerFeatureRepo.admin_perm,
      ServerFeatureRepo.data_engineers_perm, ServerFeatureRepo.data_scientists_perm,
      ServerFeatureRepo.read_only_analysts_perm, ServerFeatureRepo.restricted_user_perm,
      ServerFeatureRepo.admin_groups, ServerFeatureRepo.data_engineers_groups,
      ServerFeatureRepo.data_scientists_groups, ServerFeatureRepo.read_only_analysts_groups,
      ServerFeatureRepo.restricted_user_groups,
      FeatureRepo.permissions, FeatureRepo.admin_perm,
      FeatureRepo.data_engineers_perm, FeatureRepo.data_scientists_perm,
      FeatureRepo.read_only_analysts_perm, FeatureRepo.restricted_user_perm,
      FeatureRepo.admin_groups, FeatureRepo.data_engineers_groups,
      FeatureRepo.data_scientists_groups, FeatureRepo.read_only_analysts_groups,
      FeatureRepo.restricted_user_groups, FeatureRepo.«namespace»]

/-- Claim C7: in each exported policy store, permission names are pairwise distinct
and every permission grants a non-empty set of actions. -/
theorem policy_store_names_unique_actions_nonempty :
    (FeatureRepo.permissions.map Permission.name).Nodup ∧
    (∀ p ∈ FeatureRepo.permissions, p.actions ≠ []) ∧
    (ServerFeatureRepo.permissions.map Permission.name).Nodup ∧
    (∀ p ∈ ServerFeatureRepo.permissions, p.actions ≠ []) := by
  decide

/-- Claim C8 counterexample: in `test_delete_feature_view`, a generic exception from
the underlying store call whose message contains the words not found is caught but
reported as a per-operation success, not as a failure, contradicting the claim that
every exception raised by an underlying store call is reported as a per-operation
failure result. -/
theorem delete_feature_view_not_found_reported_success :
    ¬ (Harness.test_delete_feature_view
        (Harness.Outcome.exn "Feature View rbac_test_fv not found") = false) := by
  decide

/-- Claim C8 as amended: every test function catches FeastPermissionError and any
other exception from the underlying store call and reports a per-operation result
instead of propagating.  The reported result is a failure in every case, with two
designed exceptions: `test_delete_feature_view` reports a generic exception whose
lower-cased message contains not found or does not exist as success (the view counts
as already deleted), and `test_get_or_create_entity` (hence `test_create_feature_view`)
catches any exception from get_entity, FeastPermissionError included, falls through
to creating the entity, and reports success exactly when either the get or the
fallback apply succeeds.  The materialization loop records each failed view and
continues, its counts adding up to the number of views attempted, and a failed
listing yields a zero-count failure result.  No single failed check aborts
`run_rbac_tests`, which always reaches its final summary and returns a results
mapping with every test key. -/
theorem run_rbac_tests_catches_and_completes (env : Harness.Env) :
    ((Harness.run_rbac_tests env).map Prod.fst = Harness.rbacTestKeys) ∧
    Harness.test_list_feature_views Harness.Outcome.permErr = false ∧
    (∀ msg, Harness.test_list_feature_views (Harness.Outcome.exn msg) = false) ∧
    Harness.test_list_entities Harness.Outcome.permErr = false ∧
    (∀ msg, Harness.test_list_entities (Harness.Outcome.exn msg) = false) ∧
    Harness.test_list_feature_services Harness.Outcome.permErr = false ∧
    (∀ msg, Harness.test_list_feature_services (Harness.Outcome.exn msg) = false) ∧
    Harness.test_historical_features_call_center_90d Harness.Outcome.permErr = false ∧
    (∀ msg, Harness.test_historical_features_call_center_90d
      (Harness.Outcome.exn msg) = false) ∧
    Harness.test_historical_features_call_center_predictive Harness.Outcome.permErr = false ∧
    (∀ msg, Harness.test_historical_features_call_center_predictive
      (Harness.Outcome.exn msg) = false) ∧
    Harness.test_online_features_call_center_90d Harness.Outcome.permErr = false ∧
    (∀ msg, Harness.test_online_features_call_center_90d
      (Harness.Outcome.exn msg) = false) ∧
    Harness.test_online_features_call_center_predictive Harness.Outcome.permErr = false ∧
    (∀ msg, Harness.test_online_features_call_center_predictive
      (Harness.Outcome.exn msg) = false) ∧
    Harness.test_apply_feature_view Harness.Outcome.permErr = false ∧
    (∀ msg, Harness.test_apply_feature_view (Harness.Outcome.exn msg) = false) ∧
    Harness.test_verify_feature_view Harness.Outcome.permErr = false ∧
    (∀ msg, Harness.test_verify_feature_view (Harness.Outcome.exn msg) = false) ∧
    Harness.test_retrieve_from_created_feature_view Harness.Outcome.permErr = false ∧
    (∀ msg, Harness.test_retrieve_from_created_feature_view
      (Harness.Outcome.exn msg) = false) ∧
    Harness.test_get_or_create_data_source Harness.Outcome.permErr = false ∧
    (∀ msg, Harness.test_get_or_create_data_source (Harness.Outcome.exn msg) = false) ∧
    (∀ getE applyE, Harness.test_get_or_create_entity getE applyE =
      ((getE == Harness.Outcome.ok) || (applyE == Harness.Outcome.ok))) ∧
    (∀ getE applyE getDS, Harness.test_create_feature_view getE applyE getDS =
      (((getE == Harness.Outcome.ok) || (applyE == Harness.Outcome.ok))
        && (getDS == Harness.Outcome.ok))) ∧
    Harness.test_delete_feature_view Harness.Outcome.permErr = false ∧
    (∀ msg, Harness.test_delete_feature_view (Harness.Outcome.exn msg) =
      (containsSub "not found".toList (msg.toList.map Char.toLower)
        || containsSub "does not exist".toList (msg.toList.map Char.toLower))) ∧
    (∀ perView, Harness.test_materialize_feature_views_one_by_one
      Harness.Outcome.permErr perView = ⟨false, 0, 0, 0⟩) ∧
    (∀ msg perView, Harness.test_materialize_feature_views_one_by_one
      (Harness.Outcome.exn msg) perView = ⟨false, 0, 0, 0⟩) ∧
    (∀ perView,
      (Harness.test_materialize_feature_views_one_by_one
        Harness.Outcome.ok perView).materialized_count
        + (Harness.test_materialize_feature_views_one_by_one
            Harness.Outcome.ok perView).failed_count
        = (Harness.test_materialize_feature_views_one_by_one
            Harness.Outcome.ok perView).total_views) := by
  refine ⟨?_, rfl, fun _ => rfl, rfl, fun _ => rfl, rfl, fun _ => rfl, rfl, fun _ => rfl,
    rfl, fun _ => rfl, rfl, fun _ => rfl, rfl, fun _ => rfl, rfl, fun _ => rfl, rfl,
    fun _ => rfl, rfl, fun _ => rfl, rfl, fun _ => rfl,
    fun getE applyE => ?_, fun getE applyE getDS => ?_,
    rfl, fun msg => ?_, fun _ => rfl, fun _ _ => rfl, fun perView => ?_⟩
  · simp only [Harness.run_rbac_tests]
    split <;> first | rfl | (split <;> rfl)
  · cases getE <;> cases applyE <;> rfl
  · cases getE <;> cases applyE <;> cases getDS <;> rfl
  · simp [Harness.test_delete_feature_view]
  · simp only [Harness.test_materialize_feature_views_one_by_one]
    split
    · rfl
    · exact Nat.add_sub_cancel' (List.length_filter_le _ _)

/-- Claim C9: every one of the five permissions declared in feature_repo uses a
CombinedGroupNamespacePolicy whose namespace list is exactly the singleton feast, so
under that configuration every principal is denied every action on any resource
whose namespace is not feast. -/
theorem feature_repo_namespace_feast_only :
    (∀ p ∈ FeatureRepo.permissions,
      ∃ G, p.policy = Policy.CombinedGroupNamespacePolicy G ["feast"]) ∧
    (∀ (P : Principal) (k : ResourceType) (name ns : String) (a : AuthzedAction),
      ns ≠ "feast" →
        decision FeatureRepo.permissions P ⟨k, name, ns⟩ a = false) := by
  constructor
  · intro p hp
    simp [FeatureRepo.permissions] at hp
    rcases hp with h | h | h | h | h <;> subst h <;> exact ⟨_, rfl⟩
  · intro P k name ns a h
    simp [decision, name_matches, Policy.matches,
      FeatureRepo.permissions, FeatureRepo.admin_perm,
      FeatureRepo.data_engineers_perm, FeatureRepo.data_scientists_perm,
      FeatureRepo.read_only_analysts_perm, FeatureRepo.restricted_user_perm,
      FeatureRepo.«namespace», h]

/-- Witness for claim C9 at a concrete input: even a banking-admin principal is
denied DESCRIBE on a FeatureView in namespace production. -/
theorem feature_repo_namespace_feast_only_witness :
    ("production" ≠ "feast") ∧
    decision FeatureRepo.permissions ⟨[], ["banking-admin"]⟩
      ⟨.FeatureView, "customer_profile", "production"⟩ .DESCRIBE = false :=
  ⟨by decide,
   feature_repo_namespace_feast_only.2 ⟨[], ["banking-admin"]⟩
     .FeatureView "customer_profile" "production" .DESCRIBE (by decide)⟩

/-- Claim C10: in server_feature_repo the transaction name pattern restricts every
resource type covered by data_scientists_perm and read_only_analysts_perm, not only
FeatureView: a principal whose only group is data-scientists is denied DESCRIBE on
an Entity and on a FeatureService whose name contains transaction, while the same
request on an Entity without transaction in its name is allowed. -/
theorem data_scientists_denied_transaction_entity_and_service :
    decision ServerFeatureRepo.permissions ⟨[], ["data-scientists"]⟩
      ⟨.Entity, "transaction_entity", "feast"⟩ .DESCRIBE = false ∧
    decision ServerFeatureRepo.permissions ⟨[], ["data-scientists"]⟩
      ⟨.FeatureService, "customer_transaction_service", "feast"⟩ .DESCRIBE = false ∧
    decision ServerFeatureRepo.permissions ⟨[], ["data-scientists"]⟩
      ⟨.Entity, "customer_entity", "feast"⟩ .DESCRIBE = true := by
  decide

end BankingFeatureStore
